import Mathlib

/-!
Verification of the Bank-Account-Simulation program (src/bankSim.cpp).

Modelling conventions:
  * C++ `double` amounts are modelled as exact rationals (`ℚ`); the program
    performs only additions, subtractions and one multiplication by the
    literal constant 0.05, and the spec reasons about the amounts as exact
    decimal quantities.
  * A C++ `throw BankingException(msg)` is modelled as `Except.error msg`
    with the exact message string of the corresponding throw site; since the
    exception propagates before any mutation, an `Except.error` result
    carries no account state (the caller's account is unchanged).
  * The virtual dispatch over the two concrete subclasses is modelled by a
    `kind` tag on the account record; each override is a separate Lean
    definition named after the C++ member it embeds, and the dispatching
    wrapper matches on the tag.
  * `Bank`'s `std::vector<std::unique_ptr<BankAccount>>` is modelled as a
    `List BankAccount` in registration order; the raw pointer returned by
    `findAccount` is modelled by the index of the first match
    (`findAccountIdx`), mutation through the pointer by `List.set` at that
    index.
-/

/-- The two concrete subclasses of the abstract base class `BankAccount`. -/
inductive AccountKind : Type
  | checking
  | savings
deriving DecidableEq, Repr

/-- State of a `BankAccount` object: the protected fields `accountNumber`,
`accountHolderName` and `balance`, plus the dynamic type tag. -/
structure BankAccount : Type where
  kind : AccountKind
  accountNumber : String
  accountHolderName : String
  balance : ℚ
deriving DecidableEq, Repr

/-- `CheckingAccount::MONTHLY_FEE = 10.0`. -/
def MONTHLY_FEE : ℚ := 10

/-- `CheckingAccount::OVERDRAFT_LIMIT = 100.0`. -/
def OVERDRAFT_LIMIT : ℚ := 100

/-- `SavingsAccount::INTEREST_RATE = 0.05`. -/
def INTEREST_RATE : ℚ := 5 / 100

/-- `SavingsAccount::MINIMUM_BALANCE = 100.0`. -/
def MINIMUM_BALANCE : ℚ := 100

/-- `BankAccount::BankAccount`: initialises the three fields, then throws
`"Initial balance cannot be negative"` if `initialBalance < 0`.  The throw
aborts construction, so on error no object exists. -/
def BankAccount.construct (kind : AccountKind) (number name : String)
    (initialBalance : ℚ) : Except String BankAccount :=
  if initialBalance < 0 then
    Except.error "Initial balance cannot be negative"
  else
    Except.ok ⟨kind, number, name, initialBalance⟩

/-- `CheckingAccount::CheckingAccount`: just delegates to the base
constructor. -/
def CheckingAccount.construct (number name : String) (initialBalance : ℚ) :
    Except String BankAccount :=
  BankAccount.construct AccountKind.checking number name initialBalance

/-- `SavingsAccount::SavingsAccount`: runs the base constructor first, then
throws if `initialBalance < MINIMUM_BALANCE`. -/
def SavingsAccount.construct (number name : String) (initialBalance : ℚ) :
    Except String BankAccount :=
  match BankAccount.construct AccountKind.savings number name initialBalance with
  | Except.error e => Except.error e
  | Except.ok a =>
    if initialBalance < MINIMUM_BALANCE then
      Except.error "Minimum initial balance for Savings is $100.000000"
    else
      Except.ok a

/-- `BankAccount::deposit`: throws on `amount <= 0`, otherwise
`balance += amount`. -/
def BankAccount.deposit (a : BankAccount) (amount : ℚ) :
    Except String BankAccount :=
  if amount ≤ 0 then
    Except.error "Deposit amount must be positive"
  else
    Except.ok { a with balance := a.balance + amount }

/-- `BankAccount::withdraw` (the base-class body, inherited by
`SavingsAccount`): throws on `amount <= 0`; returns `false` with no state
change if `amount > balance`; else `balance -= amount` and returns `true`. -/
def BankAccount.withdrawBase (a : BankAccount) (amount : ℚ) :
    Except String (Bool × BankAccount) :=
  if amount ≤ 0 then
    Except.error "Withdrawal amount must be positive"
  else if amount > a.balance then
    Except.ok (false, a)
  else
    Except.ok (true, { a with balance := a.balance - amount })

/-- `CheckingAccount::withdraw` (override): throws on `amount <= 0`;
returns `false` with no state change if `amount > balance + OVERDRAFT_LIMIT`;
else `balance -= amount` and returns `true`. -/
def CheckingAccount.withdraw (a : BankAccount) (amount : ℚ) :
    Except String (Bool × BankAccount) :=
  if amount ≤ 0 then
    Except.error "Withdrawal amount must be positive"
  else if amount > a.balance + OVERDRAFT_LIMIT then
    Except.ok (false, a)
  else
    Except.ok (true, { a with balance := a.balance - amount })

/-- Virtual dispatch for `withdraw`: `CheckingAccount` overrides it,
`SavingsAccount` inherits the base body. -/
def BankAccount.withdraw (a : BankAccount) (amount : ℚ) :
    Except String (Bool × BankAccount) :=
  match a.kind with
  | AccountKind.checking => CheckingAccount.withdraw a amount
  | AccountKind.savings => BankAccount.withdrawBase a amount

/-- `CheckingAccount::applyMonthlyFee` (override): if
`balance >= MONTHLY_FEE` then `balance -= MONTHLY_FEE`, else no-op. -/
def CheckingAccount.applyMonthlyFee (a : BankAccount) : BankAccount :=
  if a.balance ≥ MONTHLY_FEE then
    { a with balance := a.balance - MONTHLY_FEE }
  else
    a

/-- `SavingsAccount::applyMonthlyFee` (override):
`balance += balance * INTEREST_RATE`, unconditionally. -/
def SavingsAccount.applyMonthlyFee (a : BankAccount) : BankAccount :=
  { a with balance := a.balance + a.balance * INTEREST_RATE }

/-- Virtual dispatch for the pure virtual `applyMonthlyFee`. -/
def BankAccount.applyMonthlyFee (a : BankAccount) : BankAccount :=
  match a.kind with
  | AccountKind.checking => CheckingAccount.applyMonthlyFee a
  | AccountKind.savings => SavingsAccount.applyMonthlyFee a

/-- `Bank`'s account collection, in registration order. -/
abbrev Bank : Type := List BankAccount

/-- `Bank::addAccount`: `accounts.push_back(...)`. -/
def Bank.addAccount (b : Bank) (a : BankAccount) : Bank :=
  List.append b [a]

/-- `Bank::findAccount`, value level: the linear scan over `accounts`
returning the first account whose `accountNumber` matches, else `nullptr`
(`none`). -/
def Bank.findAccount (b : Bank) (accountNumber : String) :
    Option BankAccount :=
  match b with
  | [] => none
  | a :: rest =>
    if a.accountNumber = accountNumber then some a
    else Bank.findAccount rest accountNumber

/-- `Bank::findAccount`, pointer level: the position (in the vector) of the
account whose address the scan returns (`none` for `nullptr`). -/
def Bank.findAccountIdx (b : Bank) (accountNumber : String) : Option Nat :=
  match b with
  | [] => none
  | a :: rest =>
    if a.accountNumber = accountNumber then some 0
    else Option.map Nat.succ (Bank.findAccountIdx rest accountNumber)

/-- `Bank::processMonthlyUpdates`: calls `applyMonthlyFee()` on each
account, in registration order. -/
def Bank.processMonthlyUpdates (b : Bank) : Bank :=
  List.map BankAccount.applyMonthlyFee b

/-- One successful mutating operation on a single account, as available to
a caller of the program: a deposit, a withdrawal (either outcome of the
boolean), or a periodic adjustment.  A throwing call leaves no new state,
so it contributes no step. -/
inductive AccountStep : BankAccount → BankAccount → Prop
  | deposit (a : BankAccount) (amount : ℚ) (a' : BankAccount) :
      BankAccount.deposit a amount = Except.ok a' → AccountStep a a'
  | withdraw (a : BankAccount) (amount : ℚ) (r : Bool) (a' : BankAccount) :
      BankAccount.withdraw a amount = Except.ok (r, a') → AccountStep a a'
  | monthly (a : BankAccount) : AccountStep a (BankAccount.applyMonthlyFee a)

/-- All states reachable from `a` by a sequence of operations. -/
def AccountReachable : BankAccount → BankAccount → Prop :=
  Relation.ReflTransGen AccountStep

/-- The lower bound on the balance maintained by each variant: `0` for
Savings (no overdraft), `-OVERDRAFT_LIMIT` for Checking. -/
def kindLowerBound : AccountKind → ℚ
  | AccountKind.checking => -OVERDRAFT_LIMIT
  | AccountKind.savings => 0

/-! ## Helper lemmas: exact characterisation of each operation's result -/

theorem deposit_ok_iff (a : BankAccount) (amount : ℚ) (a' : BankAccount) :
    BankAccount.deposit a amount = Except.ok a' ↔
      0 < amount ∧ a' = { a with balance := a.balance + amount } := by
  unfold BankAccount.deposit
  split_ifs with h
  · constructor
    · intro hh; cases hh
    · rintro ⟨hpos, -⟩; linarith
  · constructor
    · intro hh; injection hh with hh; exact ⟨not_le.mp h, hh.symm⟩
    · rintro ⟨-, rfl⟩; rfl

theorem withdrawBase_ok_iff (a : BankAccount) (amount : ℚ) (r : Bool)
    (a' : BankAccount) :
    BankAccount.withdrawBase a amount = Except.ok (r, a') ↔
      0 < amount ∧
        ((r = false ∧ a' = a ∧ a.balance < amount) ∨
         (r = true ∧ a' = { a with balance := a.balance - amount } ∧
            amount ≤ a.balance)) := by
  unfold BankAccount.withdrawBase
  split_ifs with h1 h2
  · constructor
    · intro hh; cases hh
    · rintro ⟨hpos, -⟩; linarith
  · constructor
    · intro hh
      injection hh with hh
      injection hh with hr ha
      exact ⟨not_le.mp h1, Or.inl ⟨hr.symm, ha.symm, lt_of_not_le (not_le.mpr h2)⟩⟩
    · rintro ⟨-, (⟨rfl, rfl, -⟩ | ⟨rfl, rfl, hle⟩)⟩
      · rfl
      · exact absurd h2 (not_lt.mpr hle)
  · constructor
    · intro hh
      injection hh with hh
      injection hh with hr ha
      exact ⟨not_le.mp h1, Or.inr ⟨hr.symm, ha.symm, not_lt.mp h2⟩⟩
    · rintro ⟨-, (⟨rfl, rfl, hlt⟩ | ⟨rfl, rfl, -⟩)⟩
      · exact absurd h2 (not_not_intro hlt)
      · rfl

theorem checkingWithdraw_ok_iff (a : BankAccount) (amount : ℚ) (r : Bool)
    (a' : BankAccount) :
    CheckingAccount.withdraw a amount = Except.ok (r, a') ↔
      0 < amount ∧
        ((r = false ∧ a' = a ∧ a.balance + OVERDRAFT_LIMIT < amount) ∨
         (r = true ∧ a' = { a with balance := a.balance - amount } ∧
            amount ≤ a.balance + OVERDRAFT_LIMIT)) := by
  unfold CheckingAccount.withdraw
  split_ifs with h1 h2
  · constructor
    · intro hh; cases hh
    · rintro ⟨hpos, -⟩; linarith
  · constructor
    · intro hh
      injection hh with hh
      injection hh with hr ha
      exact ⟨not_le.mp h1, Or.inl ⟨hr.symm, ha.symm, lt_of_not_le (not_le.mpr h2)⟩⟩
    · rintro ⟨-, (⟨rfl, rfl, -⟩ | ⟨rfl, rfl, hle⟩)⟩
      · rfl
      · exact absurd h2 (not_lt.mpr hle)
  · constructor
    · intro hh
      injection hh with hh
      injection hh with hr ha
      exact ⟨not_le.mp h1, Or.inr ⟨hr.symm, ha.symm, not_lt.mp h2⟩⟩
    · rintro ⟨-, (⟨rfl, rfl, hlt⟩ | ⟨rfl, rfl, -⟩)⟩
      · exact absurd h2 (not_not_intro hlt)
      · rfl

/-! ## Claim theorems -/

/-- C1: for every Checking account and every amount > 0, `withdraw` succeeds
(returns `true` with the balance decreased by exactly the amount) if and
only if the amount is at most `balance + OVERDRAFT_LIMIT`; beyond that it
returns `false` with the account unchanged; and a successful withdrawal
leaves the balance at least `-OVERDRAFT_LIMIT`. -/
theorem checking_withdraw_spec (a : BankAccount) (amount : ℚ)
    (hk : a.kind = AccountKind.checking) (hpos : 0 < amount) :
    (BankAccount.withdraw a amount =
        Except.ok (true, { a with balance := a.balance - amount }) ↔
      amount ≤ a.balance + OVERDRAFT_LIMIT) ∧
    (a.balance + OVERDRAFT_LIMIT < amount →
      BankAccount.withdraw a amount = Except.ok (false, a)) ∧
    (∀ a', BankAccount.withdraw a amount = Except.ok (true, a') →
      -OVERDRAFT_LIMIT ≤ a'.balance) := by
  have hd : BankAccount.withdraw a amount = CheckingAccount.withdraw a amount := by
    unfold BankAccount.withdraw; rw [hk]
  refine ⟨?_, ?_, ?_⟩
  · rw [hd, checkingWithdraw_ok_iff]
    constructor
    · rintro ⟨-, (⟨h, -⟩ | ⟨-, -, hle⟩)⟩
      · cases h
      · exact hle
    · intro hle
      exact ⟨hpos, Or.inr ⟨rfl, rfl, hle⟩⟩
  · intro hgt
    rw [hd, checkingWithdraw_ok_iff]
    exact ⟨hpos, Or.inl ⟨rfl, rfl, hgt⟩⟩
  · intro a' hok
    rw [hd, checkingWithdraw_ok_iff] at hok
    obtain ⟨-, (⟨h, -⟩ | ⟨-, rfl, hle⟩)⟩ := hok
    · cases h
    · show -OVERDRAFT_LIMIT ≤ a.balance - amount
      linarith

/-- Witness for C1 at the Checking account `CH001`, balance 500, amount 50. -/
theorem checking_withdraw_spec_witness :
    (BankAccount.withdraw ⟨AccountKind.checking, "CH001", "John Doe", 500⟩ 50 =
        Except.ok (true, ⟨AccountKind.checking, "CH001", "John Doe", 500 - 50⟩) ↔
      (50 : ℚ) ≤ 500 + OVERDRAFT_LIMIT) ∧
    ((500 : ℚ) + OVERDRAFT_LIMIT < 50 →
      BankAccount.withdraw ⟨AccountKind.checking, "CH001", "John Doe", 500⟩ 50 =
        Except.ok (false, ⟨AccountKind.checking, "CH001", "John Doe", 500⟩)) ∧
    (∀ a', BankAccount.withdraw ⟨AccountKind.checking, "CH001", "John Doe", 500⟩ 50 =
        Except.ok (true, a') → -OVERDRAFT_LIMIT ≤ a'.balance) :=
  checking_withdraw_spec ⟨AccountKind.checking, "CH001", "John Doe", 500⟩ 50
    rfl (by norm_num)

/-- C2: for every Savings (base-behaviour) account and every amount > 0,
`withdraw` returns `false` with the account unchanged when the amount
exceeds the balance, and otherwise returns `true` with the balance
decreased by exactly the amount; withdrawing exactly the balance succeeds
and leaves balance 0. -/
theorem savings_withdraw_spec (a : BankAccount) (amount : ℚ)
    (hk : a.kind = AccountKind.savings) (hpos : 0 < amount) :
    (a.balance < amount →
      BankAccount.withdraw a amount = Except.ok (false, a)) ∧
    (amount ≤ a.balance →
      BankAccount.withdraw a amount =
        Except.ok (true, { a with balance := a.balance - amount })) ∧
    (amount = a.balance →
      BankAccount.withdraw a amount =
        Except.ok (true, { a with balance := 0 })) := by
  have hd : BankAccount.withdraw a amount = BankAccount.withdrawBase a amount := by
    unfold BankAccount.withdraw; rw [hk]
  refine ⟨?_, ?_, ?_⟩
  · intro hlt
    rw [hd, withdrawBase_ok_iff]
    exact ⟨hpos, Or.inl ⟨rfl, rfl, hlt⟩⟩
  · intro hle
    rw [hd, withdrawBase_ok_iff]
    exact ⟨hpos, Or.inr ⟨rfl, rfl, hle⟩⟩
  · rintro rfl
    rw [hd, withdrawBase_ok_iff]
    refine ⟨hpos, Or.inr ⟨rfl, ?_, le_refl _⟩⟩
    have : a.balance - a.balance = 0 := by ring
    rw [this]

/-- Witness for C2 at a Savings account with balance 1000, amount 1000. -/
theorem savings_withdraw_spec_witness :
    ((1000 : ℚ) < 1000 →
      BankAccount.withdraw ⟨AccountKind.savings, "SV001", "Jane Smith", 1000⟩ 1000 =
        Except.ok (false, ⟨AccountKind.savings, "SV001", "Jane Smith", 1000⟩)) ∧
    ((1000 : ℚ) ≤ 1000 →
      BankAccount.withdraw ⟨AccountKind.savings, "SV001", "Jane Smith", 1000⟩ 1000 =
        Except.ok (true, ⟨AccountKind.savings, "SV001", "Jane Smith", 1000 - 1000⟩)) ∧
    ((1000 : ℚ) = 1000 →
      BankAccount.withdraw ⟨AccountKind.savings, "SV001", "Jane Smith", 1000⟩ 1000 =
        Except.ok (true, ⟨AccountKind.savings, "SV001", "Jane Smith", 0⟩)) :=
  savings_withdraw_spec ⟨AccountKind.savings, "SV001", "Jane Smith", 1000⟩ 1000
    rfl (by norm_num)

/-- C3: for every Checking account, the periodic adjustment subtracts
exactly `MONTHLY_FEE` when `balance ≥ MONTHLY_FEE` and leaves the account
exactly unchanged when `balance < MONTHLY_FEE`; no partial fee exists. -/
theorem checking_monthly_fee_spec (a : BankAccount)
    (hk : a.kind = AccountKind.checking) :
    (MONTHLY_FEE ≤ a.balance →
      BankAccount.applyMonthlyFee a =
        { a with balance := a.balance - MONTHLY_FEE }) ∧
    (a.balance < MONTHLY_FEE → BankAccount.applyMonthlyFee a = a) := by
  have hd : BankAccount.applyMonthlyFee a = CheckingAccount.applyMonthlyFee a := by
    unfold BankAccount.applyMonthlyFee; rw [hk]
  unfold CheckingAccount.applyMonthlyFee at hd
  constructor
  · intro hge
    rw [hd, if_pos hge]
  · intro hlt
    rw [hd, if_neg (not_le.mpr hlt)]

/-- Witness for C3 at a Checking account with balance 640 + fee applied,
i.e. balance 650. -/
theorem checking_monthly_fee_spec_witness :
    (MONTHLY_FEE ≤ (650 : ℚ) →
      BankAccount.applyMonthlyFee ⟨AccountKind.checking, "CH001", "John Doe", 650⟩ =
        ⟨AccountKind.checking, "CH001", "John Doe", 650 - MONTHLY_FEE⟩) ∧
    ((650 : ℚ) < MONTHLY_FEE →
      BankAccount.applyMonthlyFee ⟨AccountKind.checking, "CH001", "John Doe", 650⟩ =
        ⟨AccountKind.checking, "CH001", "John Doe", 650⟩) :=
  checking_monthly_fee_spec ⟨AccountKind.checking, "CH001", "John Doe", 650⟩ rfl

/-- C4: for every Savings account, the periodic adjustment unconditionally
sets the balance to `balance + balance * INTEREST_RATE` with
`INTEREST_RATE = 0.05`, and touches nothing else. -/
theorem savings_interest_spec (a : BankAccount)
    (hk : a.kind = AccountKind.savings) :
    BankAccount.applyMonthlyFee a =
      { a with balance := a.balance + a.balance * (5 / 100) } := by
  have hd : BankAccount.applyMonthlyFee a = SavingsAccount.applyMonthlyFee a := by
    unfold BankAccount.applyMonthlyFee; rw [hk]
  rw [hd]
  unfold SavingsAccount.applyMonthlyFee INTEREST_RATE
  rfl

/-- Witness for C4 at the Savings account `SV001` with balance 1000. -/
theorem savings_interest_spec_witness :
    BankAccount.applyMonthlyFee ⟨AccountKind.savings, "SV001", "Jane Smith", 1000⟩ =
      ⟨AccountKind.savings, "SV001", "Jane Smith", 1000 + 1000 * (5 / 100)⟩ :=
  savings_interest_spec ⟨AccountKind.savings, "SV001", "Jane Smith", 1000⟩ rfl

/-- C5: for every account variant and amount ≤ 0, both `deposit` and
`withdraw` throw the invalid-amount banking exception (so no post-state
exists and the account is unchanged); for amount > 0, `deposit` always
succeeds and increases the balance by exactly the amount. -/
theorem invalid_amount_atomicity_spec (a : BankAccount) (amount : ℚ) :
    (amount ≤ 0 →
      BankAccount.deposit a amount =
        Except.error "Deposit amount must be positive" ∧
      BankAccount.withdraw a amount =
        Except.error "Withdrawal amount must be positive") ∧
    (0 < amount →
      BankAccount.deposit a amount =
        Except.ok { a with balance := a.balance + amount }) := by
  constructor
  · intro hle
    refine ⟨?_, ?_⟩
    · unfold BankAccount.deposit
      rw [if_pos hle]
    · unfold BankAccount.withdraw
      cases a.kind
      · unfold CheckingAccount.withdraw
        rw [if_pos hle]
      · unfold BankAccount.withdrawBase
        rw [if_pos hle]
  · intro hpos
    exact (deposit_ok_iff a amount _).mpr ⟨hpos, rfl⟩

/-- Witness for C5 at a Savings account with amount -5 (and positivity case
instantiated at the same amount). -/
theorem invalid_amount_atomicity_spec_witness :
    ((-5 : ℚ) ≤ 0 →
      BankAccount.deposit ⟨AccountKind.savings, "SV001", "Jane Smith", 1000⟩ (-5) =
        Except.error "Deposit amount must be positive" ∧
      BankAccount.withdraw ⟨AccountKind.savings, "SV001", "Jane Smith", 1000⟩ (-5) =
        Except.error "Withdrawal amount must be positive") ∧
    ((0 : ℚ) < -5 →
      BankAccount.deposit ⟨AccountKind.savings, "SV001", "Jane Smith", 1000⟩ (-5) =
        Except.ok ⟨AccountKind.savings, "SV001", "Jane Smith", 1000 + -5⟩) :=
  invalid_amount_atomicity_spec ⟨AccountKind.savings, "SV001", "Jane Smith", 1000⟩ (-5)

/-- C6: construction with a negative initial balance throws the
negative-initial-balance exception for both variants; a Savings
construction with a non-negative balance below `MINIMUM_BALANCE` throws the
below-minimum exception; otherwise construction succeeds and the account
holds exactly the given number, holder name and initial balance. -/
theorem construction_validation_spec (number name : String) (init : ℚ) :
    (init < 0 →
      CheckingAccount.construct number name init =
        Except.error "Initial balance cannot be negative" ∧
      SavingsAccount.construct number name init =
        Except.error "Initial balance cannot be negative") ∧
    (0 ≤ init →
      CheckingAccount.construct number name init =
        Except.ok ⟨AccountKind.checking, number, name, init⟩) ∧
    (0 ≤ init → init < MINIMUM_BALANCE →
      SavingsAccount.construct number name init =
        Except.error "Minimum initial balance for Savings is $100.000000") ∧
    (MINIMUM_BALANCE ≤ init →
      SavingsAccount.construct number name init =
        Except.ok ⟨AccountKind.savings, number, name, init⟩) := by
  refine ⟨?_, ?_, ?_, ?_⟩
  · intro hneg
    constructor
    · unfold CheckingAccount.construct BankAccount.construct
      rw [if_pos hneg]
    · unfold SavingsAccount.construct BankAccount.construct
      rw [if_pos hneg]
  · intro hge
    unfold CheckingAccount.construct BankAccount.construct
    rw [if_neg (not_lt.mpr hge)]
  · intro hge hlt
    unfold SavingsAccount.construct BankAccount.construct
    rw [if_neg (not_lt.mpr hge)]
    simp only
    rw [if_pos hlt]
  · intro hmin
    have hge : (0 : ℚ) ≤ init := le_trans (by norm_num [MINIMUM_BALANCE]) hmin
    unfold SavingsAccount.construct BankAccount.construct
    rw [if_neg (not_lt.mpr hge)]
    simp only
    rw [if_neg (not_lt.mpr hmin)]

/-- Witness for C6 at number `SV001`, holder `Jane Smith`, initial
balance 1000. -/
theorem construction_validation_spec_witness :
    ((1000 : ℚ) < 0 →
      CheckingAccount.construct "SV001" "Jane Smith" 1000 =
        Except.error "Initial balance cannot be negative" ∧
      SavingsAccount.construct "SV001" "Jane Smith" 1000 =
        Except.error "Initial balance cannot be negative") ∧
    ((0 : ℚ) ≤ 1000 →
      CheckingAccount.construct "SV001" "Jane Smith" 1000 =
        Except.ok ⟨AccountKind.checking, "SV001", "Jane Smith", 1000⟩) ∧
    ((0 : ℚ) ≤ 1000 → (1000 : ℚ) < MINIMUM_BALANCE →
      SavingsAccount.construct "SV001" "Jane Smith" 1000 =
        Except.error "Minimum initial balance for Savings is $100.000000") ∧
    (MINIMUM_BALANCE ≤ (1000 : ℚ) →
      SavingsAccount.construct "SV001" "Jane Smith" 1000 =
        Except.ok ⟨AccountKind.savings, "SV001", "Jane Smith", 1000⟩) :=
  construction_validation_spec "SV001" "Jane Smith" 1000

/-- The two validation checks of `SavingsAccount`'s construction, in the
order the C++ constructor runs them: base check first, minimum check
second. -/
theorem savingsConstruct_eq (number name : String) (init : ℚ) :
    SavingsAccount.construct number name init =
      if init < 0 then
        Except.error "Initial balance cannot be negative"
      else if init < MINIMUM_BALANCE then
        Except.error "Minimum initial balance for Savings is $100.000000"
      else
        Except.ok ⟨AccountKind.savings, number, name, init⟩ := by
  unfold SavingsAccount.construct BankAccount.construct
  by_cases h1 : init < 0
  · rw [if_pos h1, if_pos h1]
  · rw [if_neg h1, if_neg h1]

/-- C10: a Savings construction with a negative initial balance fails with
the base class's negative-initial-balance exception, because the base
constructor's check runs first; the below-minimum exception is thrown
exactly for initial balances in `[0, MINIMUM_BALANCE)`. -/
theorem savings_validation_ordering_spec (number name : String) (init : ℚ) :
    (init < 0 →
      SavingsAccount.construct number name init =
        Except.error "Initial balance cannot be negative") ∧
    (SavingsAccount.construct number name init =
        Except.error "Minimum initial balance for Savings is $100.000000" ↔
      0 ≤ init ∧ init < MINIMUM_BALANCE) := by
  rw [savingsConstruct_eq]
  constructor
  · intro hneg
    rw [if_pos hneg]
  · by_cases h1 : init < 0
    · rw [if_pos h1]
      constructor
      · intro hh; injection hh with hh; exact absurd hh (by decide)
      · rintro ⟨hge, -⟩; exact absurd h1 (not_lt.mpr hge)
    · rw [if_neg h1]
      by_cases h2 : init < MINIMUM_BALANCE
      · rw [if_pos h2]
        exact iff_of_true rfl ⟨not_lt.mp h1, h2⟩
      · rw [if_neg h2]
        constructor
        · intro hh; cases hh
        · rintro ⟨-, hlt⟩; exact absurd hlt h2

/-- Witness for C10 at initial balance 50 (inside `[0, MINIMUM_BALANCE)`). -/
theorem savings_validation_ordering_spec_witness :
    ((50 : ℚ) < 0 →
      SavingsAccount.construct "SV002" "Ada" 50 =
        Except.error "Initial balance cannot be negative") ∧
    (SavingsAccount.construct "SV002" "Ada" 50 =
        Except.error "Minimum initial balance for Savings is $100.000000" ↔
      (0 : ℚ) ≤ 50 ∧ (50 : ℚ) < MINIMUM_BALANCE) :=
  savings_validation_ordering_spec "SV002" "Ada" 50

/-! ## Field preservation and the balance lower bound -/

theorem withdraw_ok_fields (a : BankAccount) (amount : ℚ) (r : Bool)
    (a' : BankAccount)
    (h : BankAccount.withdraw a amount = Except.ok (r, a')) :
    a'.kind = a.kind ∧ a'.accountNumber = a.accountNumber ∧
      a'.accountHolderName = a.accountHolderName := by
  cases hk : a.kind
  · have hd : BankAccount.withdraw a amount = CheckingAccount.withdraw a amount := by
      unfold BankAccount.withdraw; rw [hk]
    rw [hd, checkingWithdraw_ok_iff] at h
    obtain ⟨-, (⟨-, rfl, -⟩ | ⟨-, rfl, -⟩)⟩ := h
    · exact ⟨hk, rfl, rfl⟩
    · exact ⟨hk, rfl, rfl⟩
  · have hd : BankAccount.withdraw a amount = BankAccount.withdrawBase a amount := by
      unfold BankAccount.withdraw; rw [hk]
    rw [hd, withdrawBase_ok_iff] at h
    obtain ⟨-, (⟨-, rfl, -⟩ | ⟨-, rfl, -⟩)⟩ := h
    · exact ⟨hk, rfl, rfl⟩
    · exact ⟨hk, rfl, rfl⟩

theorem applyMonthlyFee_fields (a : BankAccount) :
    (BankAccount.applyMonthlyFee a).kind = a.kind ∧
    (BankAccount.applyMonthlyFee a).accountNumber = a.accountNumber ∧
    (BankAccount.applyMonthlyFee a).accountHolderName = a.accountHolderName := by
  cases hk : a.kind
  · have hd : BankAccount.applyMonthlyFee a = CheckingAccount.applyMonthlyFee a := by
      unfold BankAccount.applyMonthlyFee; rw [hk]
    rw [hd]
    unfold CheckingAccount.applyMonthlyFee
    split_ifs
    · exact ⟨hk, rfl, rfl⟩
    · exact ⟨hk, rfl, rfl⟩
  · have hd : BankAccount.applyMonthlyFee a = SavingsAccount.applyMonthlyFee a := by
      unfold BankAccount.applyMonthlyFee; rw [hk]
    rw [hd]
    exact ⟨hk, rfl, rfl⟩

theorem deposit_ok_lowerBound (a : BankAccount) (amount : ℚ)
    (a' : BankAccount) (hd : BankAccount.deposit a amount = Except.ok a')
    (hb : kindLowerBound a.kind ≤ a.balance) :
    kindLowerBound a'.kind ≤ a'.balance := by
  obtain ⟨hpos, rfl⟩ := (deposit_ok_iff a amount a').mp hd
  show kindLowerBound a.kind ≤ a.balance + amount
  linarith

theorem withdraw_ok_lowerBound (a : BankAccount) (amount : ℚ) (r : Bool)
    (a' : BankAccount) (hw : BankAccount.withdraw a amount = Except.ok (r, a'))
    (hb : kindLowerBound a.kind ≤ a.balance) :
    kindLowerBound a'.kind ≤ a'.balance := by
  cases hk : a.kind
  · have hd : BankAccount.withdraw a amount = CheckingAccount.withdraw a amount := by
      unfold BankAccount.withdraw; rw [hk]
    rw [hd, checkingWithdraw_ok_iff] at hw
    rw [hk] at hb
    obtain ⟨-, (⟨-, rfl, -⟩ | ⟨-, rfl, hle⟩)⟩ := hw
    · rw [hk]; exact hb
    · show kindLowerBound a.kind ≤ a.balance - amount
      rw [hk]
      simp only [kindLowerBound, OVERDRAFT_LIMIT] at *
      linarith
  · have hd : BankAccount.withdraw a amount = BankAccount.withdrawBase a amount := by
      unfold BankAccount.withdraw; rw [hk]
    rw [hd, withdrawBase_ok_iff] at hw
    rw [hk] at hb
    obtain ⟨-, (⟨-, rfl, -⟩ | ⟨-, rfl, hle⟩)⟩ := hw
    · rw [hk]; exact hb
    · show kindLowerBound a.kind ≤ a.balance - amount
      rw [hk]
      simp only [kindLowerBound] at *
      linarith

theorem applyMonthlyFee_lowerBound (a : BankAccount)
    (hb : kindLowerBound a.kind ≤ a.balance) :
    kindLowerBound (BankAccount.applyMonthlyFee a).kind ≤
      (BankAccount.applyMonthlyFee a).balance := by
  cases hk : a.kind
  · have hd : BankAccount.applyMonthlyFee a = CheckingAccount.applyMonthlyFee a := by
      unfold BankAccount.applyMonthlyFee; rw [hk]
    rw [hd]
    unfold CheckingAccount.applyMonthlyFee
    rw [hk] at hb
    simp only [kindLowerBound, OVERDRAFT_LIMIT, MONTHLY_FEE] at *
    split_ifs with hfee
    · show kindLowerBound a.kind ≤ a.balance - 10
      rw [hk]
      simp only [kindLowerBound, OVERDRAFT_LIMIT]
      linarith
    · show kindLowerBound a.kind ≤ a.balance
      rw [hk]
      simp only [kindLowerBound, OVERDRAFT_LIMIT]
      linarith
  · have hd : BankAccount.applyMonthlyFee a = SavingsAccount.applyMonthlyFee a := by
      unfold BankAccount.applyMonthlyFee; rw [hk]
    rw [hd]
    unfold SavingsAccount.applyMonthlyFee
    rw [hk] at hb
    show kindLowerBound a.kind ≤ a.balance + a.balance * INTEREST_RATE
    rw [hk]
    simp only [kindLowerBound] at *
    have hmul : 0 ≤ a.balance * INTEREST_RATE :=
      mul_nonneg hb (by norm_num [INTEREST_RATE])
    linarith

theorem accountStep_lowerBound {a a' : BankAccount} (h : AccountStep a a')
    (hb : kindLowerBound a.kind ≤ a.balance) :
    kindLowerBound a'.kind ≤ a'.balance := by
  cases h with
  | deposit amount a2 hd => exact deposit_ok_lowerBound _ _ _ hd hb
  | withdraw amount r a2 hw => exact withdraw_ok_lowerBound _ _ _ _ hw hb
  | monthly => exact applyMonthlyFee_lowerBound _ hb

/-- C7: any account state reachable from a successfully constructed
Checking or Savings account by deposits, withdrawals and periodic
adjustments has a balance at least `-OVERDRAFT_LIMIT` for Checking and at
least `0` for Savings. -/
theorem reachable_balance_invariant (number name : String) (init : ℚ)
    (a0 a : BankAccount)
    (h0 : CheckingAccount.construct number name init = Except.ok a0 ∨
          SavingsAccount.construct number name init = Except.ok a0)
    (hr : AccountReachable a0 a) :
    kindLowerBound a.kind ≤ a.balance := by
  have hb0 : kindLowerBound a0.kind ≤ a0.balance := by
    rcases h0 with h | h
    · unfold CheckingAccount.construct BankAccount.construct at h
      by_cases hneg : init < 0
      · rw [if_pos hneg] at h; cases h
      · rw [if_neg hneg] at h
        injection h with h
        subst h
        show kindLowerBound AccountKind.checking ≤ init
        simp only [kindLowerBound, OVERDRAFT_LIMIT]
        linarith [not_lt.mp hneg]
    · rw [savingsConstruct_eq] at h
      by_cases h1 : init < 0
      · rw [if_pos h1] at h; cases h
      · rw [if_neg h1] at h
        by_cases h2 : init < MINIMUM_BALANCE
        · rw [if_pos h2] at h; cases h
        · rw [if_neg h2] at h
          injection h with h
          subst h
          show kindLowerBound AccountKind.savings ≤ init
          simp only [kindLowerBound]
          exact not_lt.mp h1
  unfold AccountReachable at hr
  induction hr with
  | refl => exact hb0
  | tail _ hstep ih => exact accountStep_lowerBound hstep ih

/-- Witness for C7: the freshly constructed Checking account `CH001` with
balance 500 satisfies the bound. -/
theorem reachable_balance_invariant_witness :
    kindLowerBound
        (⟨AccountKind.checking, "CH001", "John Doe", 500⟩ : BankAccount).kind ≤
      (⟨AccountKind.checking, "CH001", "John Doe", 500⟩ : BankAccount).balance :=
  reachable_balance_invariant "CH001" "John Doe" 500
    ⟨AccountKind.checking, "CH001", "John Doe", 500⟩
    ⟨AccountKind.checking, "CH001", "John Doe", 500⟩
    (Or.inl (by norm_num [CheckingAccount.construct, BankAccount.construct]))
    Relation.ReflTransGen.refl

/-! ## Ledger lookup and frame conditions -/

theorem findAccount_eq_none_iff (b : Bank) (number : String) :
    Bank.findAccount b number = none ↔ ∀ a ∈ b, a.accountNumber ≠ number := by
  induction b with
  | nil => simp [Bank.findAccount]
  | cons hd rest ih =>
    by_cases h : hd.accountNumber = number
    · simp [Bank.findAccount, h]
    · simp [Bank.findAccount, h, ih]

theorem findAccountIdx_spec_aux (b : Bank) (number : String) :
    ∀ i, Bank.findAccountIdx b number = some i →
      ∃ a, b[i]? = some a ∧ a.accountNumber = number ∧
        Bank.findAccount b number = some a ∧
        (∀ j, j < i → ∀ a', b[j]? = some a' → a'.accountNumber ≠ number) ∧
        (∀ c : BankAccount, c.accountNumber = a.accountNumber →
          Bank.findAccount (b.set i c) number = some c) := by
  induction b with
  | nil => intro i hi; cases hi
  | cons hd rest ih =>
    intro i hi
    by_cases h : hd.accountNumber = number
    · unfold Bank.findAccountIdx at hi
      rw [if_pos h] at hi
      injection hi with hi
      subst hi
      refine ⟨hd, by simp, h, ?_, ?_, ?_⟩
      · unfold Bank.findAccount
        rw [if_pos h]
      · intro j hj
        exact absurd hj (Nat.not_lt_zero j)
      · intro c hc
        show Bank.findAccount (c :: rest) number = some c
        unfold Bank.findAccount
        rw [if_pos (hc.trans h)]
    · unfold Bank.findAccountIdx at hi
      rw [if_neg h] at hi
      obtain ⟨i', hi', rfl⟩ := Option.map_eq_some'.mp hi
      obtain ⟨a, ha1, ha2, ha3, ha4, ha5⟩ := ih i' hi'
      refine ⟨a, ?_, ha2, ?_, ?_, ?_⟩
      · simpa using ha1
      · unfold Bank.findAccount
        rw [if_neg h]
        exact ha3
      · intro j hj a' hj'
        cases j with
        | zero =>
          simp only [List.getElem?_cons_zero, Option.some.injEq] at hj'
          subst hj'
          exact h
        | succ j' =>
          simp only [List.getElem?_cons_succ] at hj'
          exact ha4 j' (Nat.succ_lt_succ_iff.mp hj) a' hj'
      · intro c hc
        show Bank.findAccount (hd :: rest.set i' c) number = some c
        unfold Bank.findAccount
        rw [if_neg h]
        exact ha5 c hc

/-- C8: `findAccount` returns "not found" exactly when no registered
account has the id; otherwise it returns the first account (in
registration order) with that id, and since the C++ return value is a raw
pointer into the collection, a mutation through it (modelled by replacing
the element at the found index with any account carrying the same id) is
seen by subsequent lookups. -/
theorem ledger_find_spec (b : Bank) (number : String) :
    (Bank.findAccount b number = none ↔ ∀ a ∈ b, a.accountNumber ≠ number) ∧
    (∀ i, Bank.findAccountIdx b number = some i →
      ∃ a, b[i]? = some a ∧ a.accountNumber = number ∧
        Bank.findAccount b number = some a ∧
        (∀ j, j < i → ∀ a', b[j]? = some a' → a'.accountNumber ≠ number) ∧
        (∀ f : BankAccount → BankAccount,
          (f a).accountNumber = a.accountNumber →
          Bank.findAccount (b.set i (f a)) number = some (f a))) :=
  ⟨findAccount_eq_none_iff b number, fun i hi => by
    obtain ⟨a, h1, h2, h3, h4, h5⟩ := findAccountIdx_spec_aux b number i hi
    exact ⟨a, h1, h2, h3, h4, fun f hf => h5 (f a) hf⟩⟩

/-- Witness for C8 at the demonstration bank (`CH001` then `SV001`),
looking up `SV001`. -/
theorem ledger_find_spec_witness :
    (Bank.findAccount [⟨AccountKind.checking, "CH001", "John Doe", 500⟩,
        ⟨AccountKind.savings, "SV001", "Jane Smith", 1000⟩] "SV001" = none ↔
      ∀ a ∈ ([⟨AccountKind.checking, "CH001", "John Doe", 500⟩,
        ⟨AccountKind.savings, "SV001", "Jane Smith", 1000⟩] : Bank),
        a.accountNumber ≠ "SV001") ∧
    (∀ i, Bank.findAccountIdx [⟨AccountKind.checking, "CH001", "John Doe", 500⟩,
        ⟨AccountKind.savings, "SV001", "Jane Smith", 1000⟩] "SV001" = some i →
      ∃ a, ([⟨AccountKind.checking, "CH001", "John Doe", 500⟩,
          ⟨AccountKind.savings, "SV001", "Jane Smith", 1000⟩] : Bank)[i]? = some a ∧
        a.accountNumber = "SV001" ∧
        Bank.findAccount [⟨AccountKind.checking, "CH001", "John Doe", 500⟩,
          ⟨AccountKind.savings, "SV001", "Jane Smith", 1000⟩] "SV001" = some a ∧
        (∀ j, j < i → ∀ a', ([⟨AccountKind.checking, "CH001", "John Doe", 500⟩,
            ⟨AccountKind.savings, "SV001", "Jane Smith", 1000⟩] : Bank)[j]? = some a' →
          a'.accountNumber ≠ "SV001") ∧
        (∀ f : BankAccount → BankAccount,
          (f a).accountNumber = a.accountNumber →
          Bank.findAccount (([⟨AccountKind.checking, "CH001", "John Doe", 500⟩,
            ⟨AccountKind.savings, "SV001", "Jane Smith", 1000⟩] : Bank).set i (f a))
            "SV001" = some (f a))) :=
  ledger_find_spec [⟨AccountKind.checking, "CH001", "John Doe", 500⟩,
    ⟨AccountKind.savings, "SV001", "Jane Smith", 1000⟩] "SV001"

/-- C9: `addAccount` appends at the end and leaves the existing accounts
untouched; `processMonthlyUpdates` maps each account to its own periodic
adjustment, preserving count and order; and no account operation changes
the account number or the holder name. -/
theorem ledger_frame_spec (b : Bank) (a : BankAccount) (amount : ℚ) :
    ((Bank.addAccount b a).length = b.length + 1 ∧
     (∀ j, j < b.length → (Bank.addAccount b a)[j]? = b[j]?) ∧
     (Bank.addAccount b a)[b.length]? = some a) ∧
    ((Bank.processMonthlyUpdates b).length = b.length ∧
     (∀ j : Nat, (Bank.processMonthlyUpdates b)[j]? =
        Option.map BankAccount.applyMonthlyFee b[j]?)) ∧
    (∀ a', BankAccount.deposit a amount = Except.ok a' →
        a'.accountNumber = a.accountNumber ∧
        a'.accountHolderName = a.accountHolderName) ∧
    (∀ r a', BankAccount.withdraw a amount = Except.ok (r, a') →
        a'.accountNumber = a.accountNumber ∧
        a'.accountHolderName = a.accountHolderName) ∧
    ((BankAccount.applyMonthlyFee a).accountNumber = a.accountNumber ∧
     (BankAccount.applyMonthlyFee a).accountHolderName = a.accountHolderName) := by
  refine ⟨⟨?_, ?_, ?_⟩, ⟨?_, ?_⟩, ?_, ?_, ?_⟩
  · show (b ++ [a]).length = b.length + 1
    simp
  · intro j hj
    show (b ++ [a])[j]? = b[j]?
    exact List.getElem?_append_left hj
  · show (b ++ [a])[b.length]? = some a
    exact List.getElem?_concat_length b a
  · show (List.map BankAccount.applyMonthlyFee b).length = b.length
    simp
  · intro j
    show (List.map BankAccount.applyMonthlyFee b)[j]? =
      Option.map BankAccount.applyMonthlyFee b[j]?
    simp [List.getElem?_map]
  · intro a' h
    obtain ⟨-, rfl⟩ := (deposit_ok_iff a amount a').mp h
    exact ⟨rfl, rfl⟩
  · intro r a' h
    obtain ⟨-, h2, h3⟩ := withdraw_ok_fields a amount r a' h
    exact ⟨h2, h3⟩
  · obtain ⟨-, h2, h3⟩ := applyMonthlyFee_fields a
    exact ⟨h2, h3⟩

/-- Witness for C9 at the bank holding `SV001`, adding `CH001`, with
amount 200. -/
theorem ledger_frame_spec_witness :
    ((Bank.addAccount [⟨AccountKind.savings, "SV001", "Jane Smith", 1000⟩]
        ⟨AccountKind.checking, "CH001", "John Doe", 500⟩).length =
      ([⟨AccountKind.savings, "SV001", "Jane Smith", 1000⟩] : Bank).length + 1 ∧
     (∀ j, j < ([⟨AccountKind.savings, "SV001", "Jane Smith", 1000⟩] : Bank).length →
       (Bank.addAccount [⟨AccountKind.savings, "SV001", "Jane Smith", 1000⟩]
         ⟨AccountKind.checking, "CH001", "John Doe", 500⟩)[j]? =
       ([⟨AccountKind.savings, "SV001", "Jane Smith", 1000⟩] : Bank)[j]?) ∧
     (Bank.addAccount [⟨AccountKind.savings, "SV001", "Jane Smith", 1000⟩]
        ⟨AccountKind.checking, "CH001", "John Doe", 500⟩)[
          ([⟨AccountKind.savings, "SV001", "Jane Smith", 1000⟩] : Bank).length]? =
       some ⟨AccountKind.checking, "CH001", "John Doe", 500⟩) ∧
    ((Bank.processMonthlyUpdates
        [⟨AccountKind.savings, "SV001", "Jane Smith", 1000⟩]).length =
      ([⟨AccountKind.savings, "SV001", "Jane Smith", 1000⟩] : Bank).length ∧
     (∀ j : Nat, (Bank.processMonthlyUpdates
         [⟨AccountKind.savings, "SV001", "Jane Smith", 1000⟩])[j]? =
       Option.map BankAccount.applyMonthlyFee
         ([⟨AccountKind.savings, "SV001", "Jane Smith", 1000⟩] : Bank)[j]?)) ∧
    (∀ a', BankAccount.deposit ⟨AccountKind.checking, "CH001", "John Doe", 500⟩ 200 =
        Except.ok a' →
      a'.accountNumber =
        (⟨AccountKind.checking, "CH001", "John Doe", 500⟩ : BankAccount).accountNumber ∧
      a'.accountHolderName =
        (⟨AccountKind.checking, "CH001", "John Doe", 500⟩ : BankAccount).accountHolderName) ∧
    (∀ r a', BankAccount.withdraw ⟨AccountKind.checking, "CH001", "John Doe", 500⟩ 200 =
        Except.ok (r, a') →
      a'.accountNumber =
        (⟨AccountKind.checking, "CH001", "John Doe", 500⟩ : BankAccount).accountNumber ∧
      a'.accountHolderName =
        (⟨AccountKind.checking, "CH001", "John Doe", 500⟩ : BankAccount).accountHolderName) ∧
    ((BankAccount.applyMonthlyFee
        ⟨AccountKind.checking, "CH001", "John Doe", 500⟩).accountNumber =
      (⟨AccountKind.checking, "CH001", "John Doe", 500⟩ : BankAccount).accountNumber ∧
     (BankAccount.applyMonthlyFee
        ⟨AccountKind.checking, "CH001", "John Doe", 500⟩).accountHolderName =
      (⟨AccountKind.checking, "CH001", "John Doe", 500⟩ : BankAccount).accountHolderName) :=
  ledger_frame_spec [⟨AccountKind.savings, "SV001", "Jane Smith", 1000⟩]
    ⟨AccountKind.checking, "CH001", "John Doe", 500⟩ 200
